import Mathlib

/-!
Shallow embedding of the tariff audit calculation engine
(`src/agents/audit_calculation_agent/calc_engine_updated.py`) of the
utility-billing-ai repository, together with theorems checking the
natural-language specification against it.

Python dynamic values are modelled by `PyVal`; Python floats are modelled
by exact rationals; code that can raise an uncaught exception returns
`Except String`; code whose exceptions are swallowed (returning `None`)
returns `Option`.
-/

/-- Kernel-computable rational addition (the library `Rat.add` is
irreducible; all engine arithmetic uses these wrappers, proved equal to
the library operations in the bridge lemmas below). -/
def qadd (a b : ℚ) : ℚ := mkRat (a.num * b.den + b.num * a.den) (a.den * b.den)

/-- Kernel-computable rational subtraction. -/
def qsub (a b : ℚ) : ℚ := mkRat (a.num * b.den - b.num * a.den) (a.den * b.den)

/-- Kernel-computable rational multiplication. -/
def qmul (a b : ℚ) : ℚ := mkRat (a.num * b.num) (a.den * b.den)

/-- Kernel-computable rational division (callers test for a zero
divisor first). -/
def qdiv (a b : ℚ) : ℚ := Rat.divInt (a.num * (b.den : ℤ)) ((a.den : ℤ) * b.num)

/-- Kernel-computable absolute value. -/
def qabs (a : ℚ) : ℚ := if a < 0 then -a else a

/-- Boolean comparison `a ≤ b` via `Rat.blt` (avoids unfolding the
`Decidable` order instances). -/
def qleB (a b : ℚ) : Bool := !Rat.blt b a

/-- Dynamic Python values as they occur in rows, tariff JSON documents,
and expression evaluation. `user` models the `SimpleNamespace` built in
`calculate_expected_bill`; `builtin` models function objects; `module`
models the `pd` module placed in the evaluation context; `date` models a
`pd.Timestamp` (kept opaque). -/
inductive PyVal where
  | none
  | bool (b : Bool)
  | num (q : ℚ)
  | str (s : String)
  | list (xs : List PyVal)
  | dict (xs : List (String × PyVal))
  | builtin (n : String)
  | module (n : String)
  | user (kwh demand rkva : ℚ) (days : ℤ) (billDate : PyVal)
  | date (s : String)

/-- Python truthiness (`bool(v)`): `None`, `False`, `0`, the empty string
and empty containers are falsy; everything else is truthy. -/
def truthy : PyVal → Bool
  | PyVal.none => false
  | PyVal.bool b => b
  | PyVal.num q => decide (q ≠ 0)
  | PyVal.str s => decide (s ≠ "")
  | PyVal.list xs => !xs.isEmpty
  | PyVal.dict xs => !xs.isEmpty
  | PyVal.builtin _ => true
  | PyVal.module _ => true
  | PyVal.user _ _ _ _ _ => true
  | PyVal.date _ => true

/-- Python `a or b`: returns `a` if truthy, else `b`. -/
def pyOr (a b : PyVal) : PyVal := if truthy a then a else b

/-- First truthy value of a list, with a default (models chains like
`step.get("unit") or step.get("applies_to") or "user.billed_kwh"`). -/
def firstTruthy (xs : List PyVal) (dflt : PyVal) : PyVal :=
  match xs.find? truthy with
  | some v => v
  | Option.none => dflt

-- ---------------------------------------------------------------------
-- character-level string helpers (kernel-friendly replacements for the
-- Python string methods used by the engine)
-- ---------------------------------------------------------------------

/-- If `sub` is a prefix of `cs`, return the remainder. -/
def dropPre : List Char → List Char → Option (List Char)
  | [], cs => some cs
  | _ :: _, [] => Option.none
  | p :: ps, c :: cs => if p = c then dropPre ps cs else Option.none

/-- Remove every (non-overlapping, leftmost) occurrence of `sub`
(models Python `s.replace(sub, "")`). -/
def removeSubAux : ℕ → List Char → List Char → List Char
  | 0, cs, _ => cs
  | _ + 1, [], _ => []
  | fuel + 1, c :: cs, sub =>
      match dropPre sub (c :: cs) with
      | some rest => removeSubAux fuel rest sub
      | Option.none => c :: removeSubAux fuel cs sub

/-- Python `s.replace(sub, "")` for nonempty `sub`. -/
def removeSub (s sub : String) : String :=
  String.mk (removeSubAux (s.length + 1) s.toList sub.toList)

/-- Python `sub in s` (substring test). -/
def containsSubAux : ℕ → List Char → List Char → Bool
  | 0, _, _ => false
  | _ + 1, [], sub => decide (sub = [])
  | fuel + 1, c :: cs, sub =>
      match dropPre sub (c :: cs) with
      | some _ => true
      | Option.none => containsSubAux fuel cs sub

/-- Python `sub in s`. -/
def containsSub (s sub : String) : Bool :=
  containsSubAux (s.length + 1) s.toList sub.toList

/-- Python `s.strip()`. -/
def pyStrip (s : String) : String :=
  String.mk (((s.toList.dropWhile Char.isWhitespace).reverse.dropWhile
    Char.isWhitespace).reverse)

/-- Python `s.upper()` (ASCII). -/
def pyUpper (s : String) : String := String.mk (s.toList.map Char.toUpper)

/-- Python `s.lower()` (ASCII). -/
def pyLower (s : String) : String := String.mk (s.toList.map Char.toLower)

/-- Python `s.startswith(p)`. -/
def startsWith (s p : String) : Bool :=
  match dropPre p.toList s.toList with
  | some _ => true
  | Option.none => false

-- ---------------------------------------------------------------------
-- numeric coercions and rounding
-- ---------------------------------------------------------------------

/-- Digits to natural number. -/
def digitsToNat (ds : List Char) : ℕ :=
  ds.foldl (fun n c => 10 * n + (c.toNat - 48)) 0

/-- Parse an unsigned decimal `digits [. digits]` with optional exponent;
returns the value and the remaining characters. Mirrors the numeric core
of Python `float()` literals (no inf and nan). -/
def parseUnsignedFloat (cs : List Char) : Option (ℚ × List Char) :=
  let (ipart, rest) := cs.span Char.isDigit
  let (fpart, rest2) :=
    match rest with
    | '.' :: r => let (fs, r2) := r.span Char.isDigit; (fs, r2)
    | _ => ([], rest)
  if ipart = [] ∧ fpart = [] then Option.none
  else
    let base : ℚ := mkRat
      ((digitsToNat ipart * 10 ^ fpart.length + digitsToNat fpart : ℕ) : ℤ)
      (10 ^ fpart.length)
    match rest2 with
    | 'e' :: r3 =>
        let (eneg, r4) :=
          match r3 with
          | '-' :: r5 => (true, r5)
          | '+' :: r5 => (false, r5)
          | _ => (false, r3)
        let (eds, r6) := r4.span Char.isDigit
        if eds = [] then Option.none
        else
          let p : ℕ := digitsToNat eds
          if eneg then some (qmul base (mkRat 1 (10 ^ p)), r6)
          else some (qmul base (mkRat ((10 ^ p : ℕ) : ℤ) 1), r6)
    | _ => some (base, rest2)

/-- Python `float(s)` on a string: strip whitespace, optional sign,
decimal literal; `none` on failure (ValueError). -/
def parseFloatStr (s : String) : Option ℚ :=
  let cs := (pyStrip s).toList
  let (neg, cs2) : Bool × List Char :=
    match cs with
    | '-' :: r => (true, r)
    | '+' :: r => (false, r)
    | _ => (false, cs)
  match parseUnsignedFloat cs2 with
  | some (q, []) => some (if neg then -q else q)
  | _ => Option.none

/-- Python `int(s)` on a string: strip, optional sign, digits only. -/
def parseIntStr (s : String) : Option ℤ :=
  let cs := (pyStrip s).toList
  let (neg, cs2) : Bool × List Char :=
    match cs with
    | '-' :: r => (true, r)
    | '+' :: r => (false, r)
    | _ => (false, cs)
  if cs2 ≠ [] ∧ cs2.all Char.isDigit then
    some (if neg then -(digitsToNat cs2 : ℤ) else (digitsToNat cs2 : ℤ))
  else Option.none

/-- Python `float(v)`: numbers and bools coerce, numeric strings parse,
everything else raises (`Except.error`). -/
def pyFloatE : PyVal → Except String ℚ
  | PyVal.num q => Except.ok q
  | PyVal.bool b => Except.ok (if b then 1 else 0)
  | PyVal.str s =>
      match parseFloatStr s with
      | some q => Except.ok q
      | Option.none => Except.error "ValueError: could not convert string to float"
  | _ => Except.error "TypeError: float() argument"

/-- Python `int(v)`: truncation toward zero for numbers, integer strings
only, bools coerce; everything else raises. -/
def pyIntE : PyVal → Except String ℤ
  | PyVal.num q => Except.ok (Int.tdiv q.num (q.den : ℤ))
  | PyVal.bool b => Except.ok (if b then 1 else 0)
  | PyVal.str s =>
      match parseIntStr s with
      | some n => Except.ok n
      | Option.none => Except.error "ValueError: invalid literal for int()"
  | _ => Except.error "TypeError: int() argument"

/-- Floor of a rational as an integer. -/
def ratFloor (q : ℚ) : ℤ := q.num.fdiv (q.den : ℤ)

/-- Round half to even to the nearest integer (Python `round`). -/
def pyRoundInt (q : ℚ) : ℤ :=
  let f := ratFloor q
  let r := qsub q (mkRat f 1)
  if r < mkRat 1 2 then f
  else if mkRat 1 2 < r then f + 1
  else if f % 2 = 0 then f else f + 1

/-- Python `round(q, 2)`. -/
def pyRound2 (q : ℚ) : ℚ := mkRat (pyRoundInt (qmul q 100)) 100

/-- Python `round(q, n)` for an integer number of digits. -/
def pyRoundDigits (q : ℚ) (n : ℤ) : ℚ :=
  if 0 ≤ n then
    mkRat (pyRoundInt (qmul q (mkRat ((10 ^ n.toNat : ℕ) : ℤ) 1))) (10 ^ n.toNat)
  else
    qmul (mkRat (pyRoundInt (qmul q (mkRat 1 (10 ^ (-n).toNat)))) 1)
      (mkRat ((10 ^ (-n).toNat : ℕ) : ℤ) 1)

/-- Two-digit zero-padded rendering of `n < 100`. -/
def pad2 (n : ℕ) : String :=
  (if n < 10 then "0" else "") ++ toString n

/-- Python `format(q, ".2f")`, used by the trace f-strings. -/
def fmt2 (q : ℚ) : String :=
  let n := pyRoundInt (qmul q 100)
  let m := n.natAbs
  (if n < 0 then "-" else "") ++ toString (m / 100) ++ "." ++ pad2 (m % 100)

/-- Python `str(v)`, as far as the engine observes it (step names, notes
and reason strings; container and function reprs are abbreviated since
the engine never branches on their text). -/
def pyFormat : PyVal → String
  | PyVal.none => "None"
  | PyVal.bool b => if b then "True" else "False"
  | PyVal.num q => if q.den = 1 then toString q.num else fmt2 q
  | PyVal.str s => s
  | PyVal.list _ => "<list>"
  | PyVal.dict _ => "<dict>"
  | PyVal.builtin n => n
  | PyVal.module n => n
  | PyVal.user _ _ _ _ _ => "<namespace>"
  | PyVal.date s => s

-- ---------------------------------------------------------------------
-- dict / row helpers (Python dict and pd.Series access)
-- ---------------------------------------------------------------------

/-- Python `d.get(k)` on an association list (first binding wins). -/
def dictGet (xs : List (String × PyVal)) (k : String) : Option PyVal :=
  match xs.find? (fun p => p.1 = k) with
  | some p => some p.2
  | Option.none => Option.none

/-- Python `d.get(k, dflt)`. Also models `pd.Series.get(k, dflt)`. -/
def dictGetD (xs : List (String × PyVal)) (k : String) (dflt : PyVal) : PyVal :=
  match dictGet xs k with
  | some v => v
  | Option.none => dflt

/-- Python `k in d`. -/
def hasKey (xs : List (String × PyVal)) (k : String) : Bool :=
  xs.any (fun p => p.1 = k)

/-- Python dict assignment `d[k] = v`: overwrite in place, else append. -/
def dictSet (xs : List (String × PyVal)) (k : String) (v : PyVal) :
    List (String × PyVal) :=
  if hasKey xs k then
    xs.map (fun p => if p.1 = k then (k, v) else p)
  else xs ++ [(k, v)]

-- ---------------------------------------------------------------------
-- voltage tier parsing and rate selection (source lines 37-109)
-- ---------------------------------------------------------------------

/-- The matches of the regex `(\d+(\.\d+)?)` over a character list, as
rationals (a dot is consumed only when followed by a digit). -/
def findNumsAux : ℕ → List Char → List ℚ
  | 0, _ => []
  | _ + 1, [] => []
  | fuel + 1, c :: cs =>
      if c.isDigit then
        let (ds, rest) := (c :: cs).span Char.isDigit
        match rest with
        | '.' :: r =>
            match r.span Char.isDigit with
            | ([], _) => mkRat ((digitsToNat ds : ℕ) : ℤ) 1 :: findNumsAux fuel rest
            | (fs, r2) =>
                mkRat ((digitsToNat ds * 10 ^ fs.length + digitsToNat fs : ℕ) : ℤ)
                  (10 ^ fs.length) ::
                  findNumsAux fuel r2
        | _ => mkRat ((digitsToNat ds : ℕ) : ℤ) 1 :: findNumsAux fuel rest
      else findNumsAux fuel cs

/-- Python `re.findall(r"(\d+(\.\d+)?)", s)` keeping the full first group. -/
def findNums (s : String) : List ℚ :=
  findNumsAux (s.length + 1) s.toList

/-- Source `_parse_voltage_tier_key`: parse keys like `0-2.2 kV`, `2.2-15 kV`,
`Over 60 kV` into a `(low, high)` range; `Option.none` as the upper bound
stands for `float("inf")`. -/
def parse_voltage_tier_key (key : String) : ℚ × Option ℚ :=
  let text := pyStrip (removeSub key "kV")
  if startsWith (pyLower text) "over" then
    match findNums text with
    | low :: _ => (low, Option.none)
    | [] => (0, Option.none)
  else
    match findNums text with
    | low :: high :: _ => (low, some high)
    | [val] => (val, some val)
    | [] => (0, Option.none)

/-- Whether `low ≤ v ≤ high` for a parsed tier range (upper bound
`Option.none` is `+inf`). -/
def tierContains (v : ℚ) (range : ℚ × Option ℚ) : Bool :=
  qleB range.1 v &&
    match range.2 with
    | some h => qleB v h
    | Option.none => true

/-- The per-tier test of the `_select_rate_by_voltage` loop: whether the
parsed range of a tier key contains the delivery voltage. -/
def tierMatchP (v : ℚ) (kr : String × PyVal) : Bool :=
  tierContains v (parse_voltage_tier_key kr.1)

/-- Source `float(v or 0.0)` guarded by try/except: falsy values give `0.0`,
coercion failures are logged and give `0.0`. -/
def floatOrZeroOfRate (v : PyVal) : ℚ :=
  match pyFloatE (if truthy v then v else PyVal.num 0) with
  | Except.ok q => q
  | Except.error _ => 0

/-- Source `_select_rate_by_voltage`: resolve a scalar-or-tiered `value` into a
rate given the delivery voltage. -/
def select_rate_by_voltage (value_obj : PyVal) (delivery_voltage : Option ℚ) : ℚ :=
  match value_obj with
  | PyVal.dict tiers =>
      match delivery_voltage with
      | Option.none => 0
      | some v =>
          match tiers.find? (tierMatchP v) with
          | some kr => floatOrZeroOfRate kr.2
          | Option.none => 0
  | v => floatOrZeroOfRate v

-- ---------------------------------------------------------------------
-- service-class normalization and the tariff rule store (lines 115-186)
-- ---------------------------------------------------------------------

/-- Source `_normalize_sc_code`: `None` becomes `""`; otherwise
`str(sc).upper().replace(" ", "").replace("-", "")`. -/
def normalize_sc_code : PyVal → String
  | PyVal.none => ""
  | v => removeSub (removeSub (pyUpper (pyFormat v)) " ") "-"

/-- Build the `sc_code -> item` mapping of `_load_logic` from a parsed
JSON document: unwrap a `tariffs` wrapper, then index every item by its
normalized `sc_code`. Any exception while iterating (non-list data,
non-dict item, missing `sc_code` key) is caught by the source and yields
the empty mapping. -/
def load_logic (data : PyVal) : List (String × PyVal) :=
  let body :=
    match data with
    | PyVal.dict xs =>
        if hasKey xs "tariffs" then dictGetD xs "tariffs" PyVal.none
        else PyVal.dict xs
    | v => v
  match body with
  | PyVal.list items =>
      if items.all (fun it =>
          match it with
          | PyVal.dict fields => hasKey fields "sc_code"
          | _ => false) then
        items.foldl (fun m it =>
          match it with
          | PyVal.dict fields =>
              dictSet m (normalize_sc_code (dictGetD fields "sc_code" PyVal.none)) it
          | _ => m) []
      else []
  | _ => []

-- ---------------------------------------------------------------------
-- expression language: the fragment of Python expressions reachable by
-- `eval(expr, SAFE_GLOBALS, context)` in `_safe_eval` (lines 15-34)
-- ---------------------------------------------------------------------

/-- Binary operators of the expression fragment. -/
inductive BinOp where
  | add | sub | mul | div | lt | le | gt | ge | eqOp | neOp
deriving DecidableEq

/-- Abstract syntax of the evaluated Python expressions: literals, names,
attribute access, arithmetic, comparisons, boolean operators and calls of
up to three arguments. -/
inductive Expr where
  | num (q : ℚ)
  | strLit (s : String)
  | boolLit (b : Bool)
  | noneLit
  | name (n : String)
  | attr (e : Expr) (a : String)
  | neg (e : Expr)
  | pos (e : Expr)
  | bin (op : BinOp) (l r : Expr)
  | andE (l r : Expr)
  | orE (l r : Expr)
  | notE (e : Expr)
  | call1 (f a : Expr)
  | call2 (f a b : Expr)
  | call3 (f a b c : Expr)

/-- Tokens of the expression lexer. -/
inductive Tok where
  | ident (s : String)
  | num (q : ℚ)
  | strT (s : String)
  | sym (s : String)
deriving DecidableEq

/-- Lex an expression string; `Option.none` is a syntax error. Quote
characters are recognized by code point (39 single, 34 double). -/
def lexAux : ℕ → List Char → Option (List Tok)
  | 0, _ => Option.none
  | _ + 1, [] => some []
  | fuel + 1, c :: cs =>
      if c.isWhitespace then lexAux fuel cs
      else if c.isAlpha || c = '_' then
        let (ids, rest) := (c :: cs).span (fun d => d.isAlphanum || d = '_')
        (lexAux fuel rest).map (fun ts => Tok.ident (String.mk ids) :: ts)
      else if c.isDigit then
        match parseUnsignedFloat (c :: cs) with
        | some (q, rest) => (lexAux fuel rest).map (fun ts => Tok.num q :: ts)
        | Option.none => Option.none
      else if c.toNat = 39 || c.toNat = 34 then
        let (body, rest) := cs.span (fun d => d.toNat ≠ c.toNat)
        match rest with
        | _ :: r => (lexAux fuel r).map (fun ts => Tok.strT (String.mk body) :: ts)
        | [] => Option.none
      else
        match c, cs with
        | '<', '=' :: r => (lexAux fuel r).map (fun ts => Tok.sym "<=" :: ts)
        | '>', '=' :: r => (lexAux fuel r).map (fun ts => Tok.sym ">=" :: ts)
        | '=', '=' :: r => (lexAux fuel r).map (fun ts => Tok.sym "==" :: ts)
        | '!', '=' :: r => (lexAux fuel r).map (fun ts => Tok.sym "!=" :: ts)
        | '<', _ => (lexAux fuel cs).map (fun ts => Tok.sym "<" :: ts)
        | '>', _ => (lexAux fuel cs).map (fun ts => Tok.sym ">" :: ts)
        | '+', _ => (lexAux fuel cs).map (fun ts => Tok.sym "+" :: ts)
        | '-', _ => (lexAux fuel cs).map (fun ts => Tok.sym "-" :: ts)
        | '*', _ => (lexAux fuel cs).map (fun ts => Tok.sym "*" :: ts)
        | '/', _ => (lexAux fuel cs).map (fun ts => Tok.sym "/" :: ts)
        | '(', _ => (lexAux fuel cs).map (fun ts => Tok.sym "(" :: ts)
        | ')', _ => (lexAux fuel cs).map (fun ts => Tok.sym ")" :: ts)
        | ',', _ => (lexAux fuel cs).map (fun ts => Tok.sym "," :: ts)
        | '.', _ => (lexAux fuel cs).map (fun ts => Tok.sym "." :: ts)
        | _, _ => Option.none

/-- Comparison symbol to operator. -/
def cmpOfSym (s : String) : Option BinOp :=
  if s = "<" then some BinOp.lt
  else if s = "<=" then some BinOp.le
  else if s = ">" then some BinOp.gt
  else if s = ">=" then some BinOp.ge
  else if s = "==" then some BinOp.eqOp
  else if s = "!=" then some BinOp.neOp
  else Option.none

/-- Fold a Python comparison chain `e0 op1 e1 op2 e2 ...` into a
conjunction of pairwise comparisons. -/
def chainCmp (e0 : Expr) : List (BinOp × Expr) → Expr
  | [] => e0
  | (op, e1) :: rest =>
      (rest.foldl (fun acc p =>
          (Expr.andE acc.1 (Expr.bin p.1 acc.2 p.2), p.2))
        (Expr.bin op e0 e1, e1)).1

mutual

def parseOrL : ℕ → List Tok → Option (Expr × List Tok)
  | 0, _ => Option.none
  | fuel + 1, ts => do
      let (e, rest) ← parseAndL fuel ts
      parseOrTail fuel e rest

def parseOrTail : ℕ → Expr → List Tok → Option (Expr × List Tok)
  | 0, _, _ => Option.none
  | fuel + 1, e, ts =>
      match ts with
      | Tok.ident "or" :: rest => do
          let (e2, rest2) ← parseAndL fuel rest
          parseOrTail fuel (Expr.orE e e2) rest2
      | _ => some (e, ts)

def parseAndL : ℕ → List Tok → Option (Expr × List Tok)
  | 0, _ => Option.none
  | fuel + 1, ts => do
      let (e, rest) ← parseNotL fuel ts
      parseAndTail fuel e rest

def parseAndTail : ℕ → Expr → List Tok → Option (Expr × List Tok)
  | 0, _, _ => Option.none
  | fuel + 1, e, ts =>
      match ts with
      | Tok.ident "and" :: rest => do
          let (e2, rest2) ← parseNotL fuel rest
          parseAndTail fuel (Expr.andE e e2) rest2
      | _ => some (e, ts)

def parseNotL : ℕ → List Tok → Option (Expr × List Tok)
  | 0, _ => Option.none
  | fuel + 1, ts =>
      match ts with
      | Tok.ident "not" :: rest => do
          let (e, rest2) ← parseNotL fuel rest
          some (Expr.notE e, rest2)
      | _ => parseCmp fuel ts

def parseCmp : ℕ → List Tok → Option (Expr × List Tok)
  | 0, _ => Option.none
  | fuel + 1, ts => do
      let (e, rest) ← parseArith fuel ts
      let (pairs, rest2) ← parseCmpTail fuel rest
      some (chainCmp e pairs, rest2)

def parseCmpTail : ℕ → List Tok → Option (List (BinOp × Expr) × List Tok)
  | 0, _ => Option.none
  | fuel + 1, ts =>
      match ts with
      | Tok.sym s :: rest =>
          match cmpOfSym s with
          | some op => do
              let (e, rest2) ← parseArith fuel rest
              let (pairs, rest3) ← parseCmpTail fuel rest2
              some ((op, e) :: pairs, rest3)
          | Option.none => some ([], ts)
      | _ => some ([], ts)

def parseArith : ℕ → List Tok → Option (Expr × List Tok)
  | 0, _ => Option.none
  | fuel + 1, ts => do
      let (e, rest) ← parseTerm fuel ts
      parseArithTail fuel e rest

def parseArithTail : ℕ → Expr → List Tok → Option (Expr × List Tok)
  | 0, _, _ => Option.none
  | fuel + 1, e, ts =>
      match ts with
      | Tok.sym "+" :: rest => do
          let (e2, rest2) ← parseTerm fuel rest
          parseArithTail fuel (Expr.bin BinOp.add e e2) rest2
      | Tok.sym "-" :: rest => do
          let (e2, rest2) ← parseTerm fuel rest
          parseArithTail fuel (Expr.bin BinOp.sub e e2) rest2
      | _ => some (e, ts)

def parseTerm : ℕ → List Tok → Option (Expr × List Tok)
  | 0, _ => Option.none
  | fuel + 1, ts => do
      let (e, rest) ← parseFactor fuel ts
      parseTermTail fuel e rest

def parseTermTail : ℕ → Expr → List Tok → Option (Expr × List Tok)
  | 0, _, _ => Option.none
  | fuel + 1, e, ts =>
      match ts with
      | Tok.sym "*" :: rest => do
          let (e2, rest2) ← parseFactor fuel rest
          parseTermTail fuel (Expr.bin BinOp.mul e e2) rest2
      | Tok.sym "/" :: rest => do
          let (e2, rest2) ← parseFactor fuel rest
          parseTermTail fuel (Expr.bin BinOp.div e e2) rest2
      | _ => some (e, ts)

def parseFactor : ℕ → List Tok → Option (Expr × List Tok)
  | 0, _ => Option.none
  | fuel + 1, ts =>
      match ts with
      | Tok.sym "-" :: rest => do
          let (e, rest2) ← parseFactor fuel rest
          some (Expr.neg e, rest2)
      | Tok.sym "+" :: rest => do
          let (e, rest2) ← parseFactor fuel rest
          some (Expr.pos e, rest2)
      | _ => do
          let (e, rest) ← parseAtom fuel ts
          parseTrailers fuel e rest

def parseTrailers : ℕ → Expr → List Tok → Option (Expr × List Tok)
  | 0, _, _ => Option.none
  | fuel + 1, e, ts =>
      match ts with
      | Tok.sym "." :: Tok.ident a :: rest => parseTrailers fuel (Expr.attr e a) rest
      | Tok.sym "(" :: rest => do
          let (args, rest2) ← parseArgs fuel rest
          match rest2 with
          | Tok.sym ")" :: rest3 =>
              match args with
              | [a] => parseTrailers fuel (Expr.call1 e a) rest3
              | [a, b] => parseTrailers fuel (Expr.call2 e a b) rest3
              | [a, b, c] => parseTrailers fuel (Expr.call3 e a b c) rest3
              | _ => Option.none
          | _ => Option.none
      | _ => some (e, ts)

def parseArgs : ℕ → List Tok → Option (List Expr × List Tok)
  | 0, _ => Option.none
  | fuel + 1, ts => do
      let (e, rest) ← parseOrL fuel ts
      match rest with
      | Tok.sym "," :: rest2 => do
          let (es, rest3) ← parseArgs fuel rest2
          some (e :: es, rest3)
      | _ => some ([e], rest)

def parseAtom : ℕ → List Tok → Option (Expr × List Tok)
  | 0, _ => Option.none
  | fuel + 1, ts =>
      match ts with
      | Tok.num q :: rest => some (Expr.num q, rest)
      | Tok.strT s :: rest => some (Expr.strLit s, rest)
      | Tok.ident "True" :: rest => some (Expr.boolLit true, rest)
      | Tok.ident "False" :: rest => some (Expr.boolLit false, rest)
      | Tok.ident "None" :: rest => some (Expr.noneLit, rest)
      | Tok.ident n :: rest => some (Expr.name n, rest)
      | Tok.sym "(" :: rest => do
          let (e, rest2) ← parseOrL fuel rest
          match rest2 with
          | Tok.sym ")" :: rest3 => some (e, rest3)
          | _ => Option.none
      | _ => Option.none

end

/-- Parse a whole expression string into the AST; `Option.none` is a
syntax error. -/
def parseExpr (s : String) : Option Expr := do
  let ts ← lexAux (s.length + 1) s.toList
  let (e, rest) ← parseOrL (10 * ts.length + 10) ts
  if rest = [] then some e else Option.none

-- ---------------------------------------------------------------------
-- evaluation of expressions against the engine context
-- ---------------------------------------------------------------------

/-- The evaluation context of `calculate_expected_bill`: the `user`
namespace plus the top-level values placed in `eval_context`
(the `pd` module and the `SAFE_GLOBALS` entries are materialized in
`lookupName` below). -/
structure EvalCtx where
  mk ::
  user : PyVal
  time_of_use : PyVal
  delivery_voltage : Option ℚ

/-- An optional voltage as the Python value stored in the context. -/
def ovToPy : Option ℚ → PyVal
  | some q => PyVal.num q
  | Option.none => PyVal.none

/-- Name resolution of `eval(expr, SAFE_GLOBALS, eval_context)`: the
locals dict holds `user`, `pd`, `time_of_use`, `delivery_voltage`; the
globals dict holds `min`, `max`, `abs`, `round` and `__builtins__ = None`
(which disables all other builtins). Every other name is a `NameError`. -/
def lookupName (ctx : EvalCtx) (n : String) : Option PyVal :=
  if n = "user" then some ctx.user
  else if n = "pd" then some (PyVal.module "pandas")
  else if n = "time_of_use" then some ctx.time_of_use
  else if n = "delivery_voltage" then some (ovToPy ctx.delivery_voltage)
  else if n = "min" || n = "max" || n = "abs" || n = "round" then
    some (PyVal.builtin n)
  else if n = "__builtins__" then some PyVal.none
  else Option.none

/-- Attribute access. The `user` namespace exposes exactly the five
fields set in `calculate_expected_bill`; the `pd` module exposes the
pandas entry points the tariff data can mention; everything else is an
`AttributeError`. -/
def getAttrVal : PyVal → String → Option PyVal
  | PyVal.user kwh dem rkva days bd, a =>
      if a = "billed_kwh" then some (PyVal.num kwh)
      else if a = "billed_demand" then some (PyVal.num dem)
      else if a = "billed_rkva" then some (PyVal.num rkva)
      else if a = "days_used" then some (PyVal.num (mkRat days 1))
      else if a = "bill_date" then some bd
      else Option.none
  | PyVal.module m, a =>
      if a = "to_datetime" || a = "Timestamp" then
        some (PyVal.builtin (m ++ "." ++ a))
      else Option.none
  | _, _ => Option.none

/-- Numeric view of a value (`bool` coerces as 0/1), used by arithmetic
and ordering. -/
def asNum : PyVal → Option ℚ
  | PyVal.num q => some q
  | PyVal.bool b => some (if b then 1 else 0)
  | _ => Option.none

/-- Python `==` on the values the engine compares (numbers, strings,
`None`, dates); distinct types compare unequal rather than raising. -/
def pyEqB (a b : PyVal) : Bool :=
  match asNum a, asNum b with
  | some x, some y => decide (x = y)
  | _, _ =>
      match a, b with
      | PyVal.str s, PyVal.str t => decide (s = t)
      | PyVal.none, PyVal.none => true
      | PyVal.date s, PyVal.date t => decide (s = t)
      | _, _ => false

/-- Evaluate one binary operator; `Option.none` is a raised `TypeError`
or `ZeroDivisionError`. -/
def evalBin (op : BinOp) (a b : PyVal) : Option PyVal :=
  match op with
  | BinOp.eqOp => some (PyVal.bool (pyEqB a b))
  | BinOp.neOp => some (PyVal.bool (!pyEqB a b))
  | BinOp.add =>
      match asNum a, asNum b with
      | some x, some y => some (PyVal.num (qadd x y))
      | _, _ =>
          match a, b with
          | PyVal.str s, PyVal.str t => some (PyVal.str (s ++ t))
          | _, _ => Option.none
  | BinOp.sub =>
      match asNum a, asNum b with
      | some x, some y => some (PyVal.num (qsub x y))
      | _, _ => Option.none
  | BinOp.mul =>
      match asNum a, asNum b with
      | some x, some y => some (PyVal.num (qmul x y))
      | _, _ => Option.none
  | BinOp.div =>
      match asNum a, asNum b with
      | some x, some y => if y = 0 then Option.none else some (PyVal.num (qdiv x y))
      | _, _ => Option.none
  | BinOp.lt =>
      match asNum a, asNum b with
      | some x, some y => some (PyVal.bool (decide (x < y)))
      | _, _ =>
          match a, b with
          | PyVal.str s, PyVal.str t => some (PyVal.bool (decide (s < t)))
          | _, _ => Option.none
  | BinOp.le =>
      match asNum a, asNum b with
      | some x, some y => some (PyVal.bool (decide (x ≤ y)))
      | _, _ =>
          match a, b with
          | PyVal.str s, PyVal.str t => some (PyVal.bool (decide (s ≤ t)))
          | _, _ => Option.none
  | BinOp.gt =>
      match asNum a, asNum b with
      | some x, some y => some (PyVal.bool (decide (y < x)))
      | _, _ =>
          match a, b with
          | PyVal.str s, PyVal.str t => some (PyVal.bool (decide (t < s)))
          | _, _ => Option.none
  | BinOp.ge =>
      match asNum a, asNum b with
      | some x, some y => some (PyVal.bool (decide (y ≤ x)))
      | _, _ =>
          match a, b with
          | PyVal.str s, PyVal.str t => some (PyVal.bool (decide (t ≤ s)))
          | _, _ => Option.none

/-- Abstraction of `pd.to_datetime` on a string: succeeds on date-like
strings (kept opaque), raises otherwise. -/
def pd_to_datetime (s : String) : Option PyVal :=
  if s.toList.any Char.isDigit then some (PyVal.date s) else Option.none

/-- Minimum or maximum of a list of numeric values (`min(xs)`). -/
def minMaxOfList (isMin : Bool) (xs : List PyVal) : Option PyVal :=
  match xs.mapM asNum with
  | some (q :: qs) =>
      some (PyVal.num (qs.foldl (fun a b => if isMin then min a b else max a b) q))
  | _ => Option.none

/-- Apply a one-argument call. -/
def applyCall1 (f a : PyVal) : Option PyVal :=
  match f with
  | PyVal.builtin "abs" => (asNum a).map (fun q => PyVal.num (qabs q))
  | PyVal.builtin "round" => (asNum a).map (fun q => PyVal.num (mkRat (pyRoundInt q) 1))
  | PyVal.builtin "min" =>
      match a with
      | PyVal.list xs => minMaxOfList true xs
      | _ => Option.none
  | PyVal.builtin "max" =>
      match a with
      | PyVal.list xs => minMaxOfList false xs
      | _ => Option.none
  | PyVal.builtin "pandas.to_datetime" =>
      match a with
      | PyVal.str s => pd_to_datetime s
      | PyVal.date s => some (PyVal.date s)
      | _ => Option.none
  | PyVal.builtin "pandas.Timestamp" =>
      match a with
      | PyVal.str s => pd_to_datetime s
      | _ => Option.none
  | _ => Option.none

/-- Apply a two-argument call. -/
def applyCall2 (f a b : PyVal) : Option PyVal :=
  match f with
  | PyVal.builtin "min" =>
      match asNum a, asNum b with
      | some x, some y => some (PyVal.num (min x y))
      | _, _ =>
          match a, b with
          | PyVal.str s, PyVal.str t => some (PyVal.str (if s ≤ t then s else t))
          | _, _ => Option.none
  | PyVal.builtin "max" =>
      match asNum a, asNum b with
      | some x, some y => some (PyVal.num (max x y))
      | _, _ =>
          match a, b with
          | PyVal.str s, PyVal.str t => some (PyVal.str (if s ≤ t then t else s))
          | _, _ => Option.none
  | PyVal.builtin "round" =>
      match asNum a, asNum b with
      | some x, some y =>
          if y.den = 1 then some (PyVal.num (pyRoundDigits x y.num)) else Option.none
      | _, _ => Option.none
  | _ => Option.none

/-- Apply a three-argument call. -/
def applyCall3 (f a b c : PyVal) : Option PyVal :=
  match f with
  | PyVal.builtin "min" => minMaxOfList true [a, b, c]
  | PyVal.builtin "max" => minMaxOfList false [a, b, c]
  | _ => Option.none

/-- Evaluate an expression against the context; `Option.none` is any
raised exception (`NameError`, `AttributeError`, `TypeError`, ...). -/
def evalExpr (ctx : EvalCtx) : Expr → Option PyVal
  | Expr.num q => some (PyVal.num q)
  | Expr.strLit s => some (PyVal.str s)
  | Expr.boolLit b => some (PyVal.bool b)
  | Expr.noneLit => some PyVal.none
  | Expr.name n => lookupName ctx n
  | Expr.attr e a => (evalExpr ctx e).bind (fun v => getAttrVal v a)
  | Expr.neg e =>
      (evalExpr ctx e).bind (fun v => (asNum v).map (fun q => PyVal.num (-q)))
  | Expr.pos e =>
      (evalExpr ctx e).bind (fun v => (asNum v).map (fun q => PyVal.num q))
  | Expr.bin op l r => do
      let a ← evalExpr ctx l
      let b ← evalExpr ctx r
      evalBin op a b
  | Expr.andE l r => do
      let a ← evalExpr ctx l
      if truthy a then evalExpr ctx r else some a
  | Expr.orE l r => do
      let a ← evalExpr ctx l
      if truthy a then some a else evalExpr ctx r
  | Expr.notE e => (evalExpr ctx e).map (fun v => PyVal.bool (!truthy v))
  | Expr.call1 f a => do
      let fv ← evalExpr ctx f
      let av ← evalExpr ctx a
      applyCall1 fv av
  | Expr.call2 f a b => do
      let fv ← evalExpr ctx f
      let av ← evalExpr ctx a
      let bv ← evalExpr ctx b
      applyCall2 fv av bv
  | Expr.call3 f a b c => do
      let fv ← evalExpr ctx f
      let av ← evalExpr ctx a
      let bv ← evalExpr ctx b
      let cv ← evalExpr ctx c
      applyCall3 fv av bv cv

/-- Source `_safe_eval`: empty expression gives `None`; otherwise parse and
evaluate, turning every exception into `None` (the failure signal). It
never raises to the caller. -/
def safe_eval (expr : String) (ctx : EvalCtx) : Option PyVal :=
  if expr = "" then Option.none
  else
    match parseExpr expr with
    | some e => evalExpr ctx e
    | Option.none => Option.none

-- ---------------------------------------------------------------------
-- the audit engine: `calculate_expected_bill` (source lines 186-423)
-- ---------------------------------------------------------------------

/-- Charge types treated as reference-only classifications. -/
def refOnlyTypes : List String :=
  ["reference", "energy_rate", "demand_rate", "energy_rate_minimum",
   "demand_determination"]

/-- Source `_normalize_condition`: non-strings become `Always`; strings get
their `" kV"` suffixes stripped. -/
def normalize_condition : PyVal → String
  | PyVal.str c => removeSub c " kV"
  | _ => "Always"

/-- The condition gate of the step loop: `Always` passes; otherwise the
condition is evaluated and a falsy or failed result skips the step. -/
def conditionPasses (ctx : EvalCtx) (condition : String) : Bool :=
  if condition = "Always" then true
  else
    match safe_eval condition ctx with
    | some v => truthy v
    | Option.none => false

/-- Source `float(x or 0.0)` applied to an evaluation result: a `None` or falsy
result becomes `0.0`; a truthy non-numeric result raises (caught by the
step try/except). -/
def floatOrZeroE : Option PyVal → Except String ℚ
  | Option.none => Except.ok 0
  | some v => if truthy v then pyFloatE v else Except.ok 0

/-- Quantity expression of a `per_kwh`-family step: `unit` or
`applies_to`, falling back to `user.billed_kwh` whenever the chosen text
does not mention `user.`. -/
def resolveQuantityExpr (sd : List (String × PyVal)) : String :=
  let qs := pyFormat (firstTruthy
    [dictGetD sd "unit" PyVal.none, dictGetD sd "applies_to" PyVal.none]
    (PyVal.str "user.billed_kwh"))
  if containsSub qs "user." then qs else "user.billed_kwh"

/-- Demand expression of a `per_kw`-family step: the `demand_kw` key if
present, else `formula`/`unit`, defaulting to `user.billed_demand`. -/
def resolveDemandExpr (sd : List (String × PyVal)) : String :=
  let de :=
    if hasKey sd "demand_kw" then dictGetD sd "demand_kw" PyVal.none
    else firstTruthy
      [dictGetD sd "formula" PyVal.none, dictGetD sd "unit" PyVal.none]
      (PyVal.str "user.billed_demand")
  let ds := pyFormat de
  if containsSub ds "user." then ds else "user.billed_demand"

/-- Reactive-demand expression of a `per_rkva`-family step. -/
def resolveRkvaExpr (sd : List (String × PyVal)) : String :=
  let rs := pyFormat (firstTruthy
    [dictGetD sd "demand_rkva" PyVal.none, dictGetD sd "formula" PyVal.none,
     dictGetD sd "unit" PyVal.none]
    (PyVal.str "user.billed_rkva"))
  if containsSub rs "user." then rs else "user.billed_rkva"

/-- The monetary dispatch of the step loop (the body of the try block):
`Except.ok (some cost)` adds a charge, `Except.ok Option.none` is the
unsupported-charge-type branch, `Except.error` is a caught math error. -/
def computeCost (sd : List (String × PyVal)) (charge_type : String)
    (ctx : EvalCtx) (dv : Option ℚ) : Except String (Option ℚ) :=
  if charge_type = "fixed_fee" then
    Except.ok (some (select_rate_by_voltage (dictGetD sd "value" (PyVal.num 0)) dv))
  else if charge_type = "per_kwh" || charge_type = "energy_charge" then
    let rate := select_rate_by_voltage (dictGetD sd "value" (PyVal.num 0)) dv
    match floatOrZeroE (safe_eval (resolveQuantityExpr sd) ctx) with
    | Except.ok q => Except.ok (some (qmul rate q))
    | Except.error e => Except.error e
  else if charge_type = "per_kw" || charge_type = "demand_charge" ||
      charge_type = "demand_fee" then
    let rate := select_rate_by_voltage (dictGetD sd "value" (PyVal.num 0)) dv
    match floatOrZeroE (safe_eval (resolveDemandExpr sd) ctx) with
    | Except.ok q => Except.ok (some (qmul rate q))
    | Except.error e => Except.error e
  else if charge_type = "per_rkva" || charge_type = "reactive_demand_fee" then
    let rate := select_rate_by_voltage (dictGetD sd "value" (PyVal.num 0)) dv
    match floatOrZeroE (safe_eval (resolveRkvaExpr sd) ctx) with
    | Except.ok q => Except.ok (some (qmul rate q))
    | Except.error e => Except.error e
  else Except.ok Option.none

/-- Trace line for a failed condition. -/
def condFalseLine (step_name condition : String) : String :=
  step_name ++ ": condition \x27" ++ condition ++ "\x27 false; skipped."

/-- Trace line for a recorded minimum candidate. -/
def minCandLine (step_name : String) (m : ℚ) : String :=
  step_name ++ ": minimum candidate recorded ($" ++ fmt2 m ++ ")."

/-- Trace line for an applied charge. -/
def chargeLine (step_name : String) (cost : ℚ) : String :=
  step_name ++ ": $" ++ fmt2 cost

/-- Process one tariff step, threading the loop state
`(total_expected, trace_log, min_candidates)`. An `Except.error` is an
exception the loop body does not catch (non-dict step, or a truthy
non-string `charge_type` hitting `.strip()`). -/
def processStep (ctx : EvalCtx) (dv : Option ℚ)
    (st : ℚ × List String × List ℚ) (step : PyVal) :
    Except String (ℚ × List String × List ℚ) :=
  match step with
  | PyVal.dict sd =>
      let step_name := pyFormat (dictGetD sd "step_name" (PyVal.str "Unknown"))
      match pyOr (dictGetD sd "charge_type" PyVal.none) (PyVal.str "") with
      | PyVal.str ct0 =>
          let charge_type := pyStrip ct0
          let condition := normalize_condition (dictGetD sd "condition" (PyVal.str "Always"))
          if charge_type = "" ∧ hasKey sd "note" then
            Except.ok (st.1,
              st.2.1 ++ [step_name ++ ": informational only, no charge applied."],
              st.2.2)
          else if refOnlyTypes.contains charge_type then
            let ref_note := firstTruthy
              [dictGetD sd "reference" PyVal.none, dictGetD sd "note" PyVal.none]
              (PyVal.str "Reference-only step.")
            Except.ok (st.1,
              st.2.1 ++ [step_name ++ ": " ++ pyFormat ref_note ++
                " (no direct charge computed)."],
              st.2.2)
          else if !conditionPasses ctx condition then
            Except.ok (st.1, st.2.1 ++ [condFalseLine step_name condition], st.2.2)
          else if charge_type = "minimum_charge" || charge_type = "minimum_bill" then
            match pyFloatE (pyOr (dictGetD sd "value" (PyVal.num 0)) (PyVal.num 0)) with
            | Except.ok m =>
                Except.ok (st.1, st.2.1 ++ [minCandLine step_name m], st.2.2 ++ [m])
            | Except.error _ => Except.ok st
          else
            match computeCost sd charge_type ctx dv with
            | Except.ok (some cost) =>
                Except.ok (qadd st.1 cost, st.2.1 ++ [chargeLine step_name cost], st.2.2)
            | Except.ok Option.none =>
                Except.ok (st.1,
                  st.2.1 ++ [step_name ++ ": charge_type \x27" ++ charge_type ++
                    "\x27 unsupported; skipped."],
                  st.2.2)
            | Except.error _ => Except.ok st
      | _ => Except.error "AttributeError: strip on non-string charge_type"
  | _ => Except.error "AttributeError: step has no attribute get"

/-- Trace line of the minimum-charge adjustment. -/
def minAdjLine (m adj : ℚ) : String :=
  "Minimum Charge Adjustment: Increased bill to minimum $" ++ fmt2 m ++
    " (+$" ++ fmt2 adj ++ ")."

/-- Python `max(list)` for a nonempty list given as head and tail. -/
def maxList (x : ℚ) (xs : List ℚ) : ℚ := xs.foldl max x

/-- The minimum-charge resolution after the step loop: with candidates
recorded, the strictest (highest) minimum wins, and the total is raised
to it, with a trace line, exactly when it was below. -/
def applyMinimums (total : ℚ) (trace : List String) (cands : List ℚ) :
    ℚ × List String :=
  match cands with
  | [] => (total, trace)
  | c :: cs =>
      let m := maxList c cs
      if total < m then (m, trace ++ [minAdjLine m (qsub m total)])
      else (total, trace)

/-- Source `float(row.get(k, 0) or 0)` — the numeric field coercions of the
user context; raises on truthy values `float()` cannot convert. -/
def getNumField (row : List (String × PyVal)) (k : String) : Except String ℚ :=
  pyFloatE (pyOr (dictGetD row k (PyVal.num 0)) (PyVal.num 0))

/-- Source `int(row.get("days_used", 30) or 30)`. -/
def getDaysUsed (row : List (String × PyVal)) : Except String ℤ :=
  pyIntE (pyOr (dictGetD row "days_used" (PyVal.num 30)) (PyVal.num 30))

/-- Source `float(row.get("bill_amount", 0.0) or 0.0)`. -/
def getActualBill (row : List (String × PyVal)) : Except String ℚ :=
  pyFloatE (pyOr (dictGetD row "bill_amount" (PyVal.num 0)) (PyVal.num 0))

/-- The delivery-voltage extraction: `row.get("delivery_voltage_kv") or
row.get("delivery_voltage")`, then `float(...)` guarded by try/except,
keeping `None` for `None` and for conversion failures. -/
def dvOf (vkv vd : PyVal) : Option ℚ :=
  match pyOr vkv vd with
  | PyVal.none => Option.none
  | v =>
      match pyFloatE v with
      | Except.ok q => some q
      | Except.error _ => Option.none

/-- Delivery voltage of a row. -/
def extractDV (row : List (String × PyVal)) : Option ℚ :=
  dvOf (dictGetD row "delivery_voltage_kv" PyVal.none)
    (dictGetD row "delivery_voltage" PyVal.none)

/-- The `bill_date` preparation: strings go through `pd.to_datetime` inside
try/except-pass, everything else is kept as is. -/
def getBillDate (row : List (String × PyVal)) : PyVal :=
  match dictGetD row "bill_date" PyVal.none with
  | PyVal.str s =>
      match pd_to_datetime s with
      | some d => d
      | Option.none => PyVal.str s
  | v => v

/-- The SKIPPED result mapping. Note that it carries `reason` and
`expected_amount` but no `actual_bill` key. -/
def skippedResult (reason sc : String) : List (String × PyVal) :=
  [("status", PyVal.str "SKIPPED"), ("reason", PyVal.str reason),
   ("sc_code", PyVal.str sc), ("expected_amount", PyVal.num 0),
   ("expected_bill", PyVal.num 0), ("variance", PyVal.num 0),
   ("trace", PyVal.list [PyVal.str reason])]

/-- The SUCCESS result mapping: the amounts are rounded to two digits
and the variance is the rounding of `total - actual`. -/
def successResult (sc : String) (actual total : ℚ) (trace : List String) :
    List (String × PyVal) :=
  [("status", PyVal.str "SUCCESS"), ("sc_code", PyVal.str sc),
   ("actual_bill", PyVal.num (pyRound2 actual)),
   ("expected_bill", PyVal.num (pyRound2 total)),
   ("variance", PyVal.num (pyRound2 (qsub total actual))),
   ("trace", PyVal.list (trace.map PyVal.str))]

/-- The evaluation context built from a row and its coerced numeric
fields (the `user` namespace, `time_of_use` and `delivery_voltage`). -/
def mkUserCtx (row : List (String × PyVal)) (kwh dem rkva : ℚ) (days : ℤ) : EvalCtx :=
  EvalCtx.mk (PyVal.user kwh dem rkva days (getBillDate row))
    (dictGetD row "time_of_use" PyVal.none) (extractDV row)

/-- The tariff-step loop: fold `processStep` over the steps starting
from zero total, empty trace and no minimum candidates. -/
def runSteps (ctx : EvalCtx) (dv : Option ℚ) (steps : List PyVal) :
    Except String (ℚ × List String × List ℚ) :=
  List.foldlM (processStep ctx dv) ((0 : ℚ), ([] : List String), ([] : List ℚ)) steps

/-- The non-skipped path of `calculate_expected_bill`: coerce the row's
numeric fields (raising on malformed truthy values), run the step loop,
apply the minimum-charge resolution and round the outcome. -/
def runAudit (row : List (String × PyVal)) (sc_code : String) (steps : List PyVal) :
    Except String (List (String × PyVal)) := do
  let kwh ← getNumField row "billed_kwh"
  let dem ← getNumField row "billed_demand"
  let rkva ← getNumField row "billed_rkva"
  let days ← getDaysUsed row
  let ctx := mkUserCtx row kwh dem rkva days
  let st ← runSteps ctx (extractDV row) steps
  let fin := applyMinimums st.1 st.2.1 st.2.2
  let actual ← getActualBill row
  Except.ok (successResult sc_code actual fin.1 fin.2)

/-- The raw `service_class` value of a row (defaulting to `SC1`). -/
def rawScOf (row : List (String × PyVal)) : PyVal :=
  dictGetD row "service_class" (PyVal.str "SC1")

/-- The normalized service-class code of a row. -/
def rowSc (row : List (String × PyVal)) : String :=
  normalize_sc_code (rawScOf row)

/-- The reason string of the no-logic SKIPPED result. -/
def noLogicMsg (row : List (String × PyVal)) : String :=
  "No logic for " ++ pyFormat (rawScOf row) ++ " (normalized=" ++ rowSc row ++ ")"

/-- Source `logic.get("logic_steps") or []`. -/
def stepsVal (logic : List (String × PyVal)) : PyVal :=
  pyOr (dictGetD logic "logic_steps" PyVal.none) (PyVal.list [])

/-- The reason string of the empty-logic SKIPPED result: the raw service
class with the note of the tariff (or a default). -/
def emptyLogicMsg (row logic : List (String × PyVal)) : String :=
  pyFormat (rawScOf row) ++ ": " ++
    pyFormat (firstTruthy
      [dictGetD logic "note" PyVal.none, dictGetD logic "notes" PyVal.none]
      (PyVal.str "No active rate logic."))

/-- Source `AuditEngine.calculate_expected_bill`: compute the expected bill of
one usage row against the loaded tariff map. `Except.error` models an
uncaught exception escaping the method. -/
def calculate_expected_bill (tariff_map : List (String × PyVal))
    (row : List (String × PyVal)) : Except String (List (String × PyVal)) :=
  match dictGet tariff_map (rowSc row) with
  | Option.none => Except.ok (skippedResult (noLogicMsg row) (rowSc row))
  | some logicVal =>
      if !truthy logicVal then Except.ok (skippedResult (noLogicMsg row) (rowSc row))
      else
        match logicVal with
        | PyVal.dict logic =>
            if !truthy (stepsVal logic) then
              Except.ok (skippedResult (emptyLogicMsg row logic) (rowSc row))
            else
              match stepsVal logic with
              | PyVal.list steps => runAudit row (rowSc row) steps
              | _ => Except.error "TypeError: iterating a non-list logic_steps"
        | _ => Except.error "AttributeError: logic has no attribute get"

-- ---------------------------------------------------------------------
-- predicates and projections used to state the specification claims
-- ---------------------------------------------------------------------

/-- Whether an `Except` finished without an exception. -/
def isOkE {α : Type} : Except String α → Bool
  | Except.ok _ => true
  | Except.error _ => false

/-- Whether an `Except` raised. -/
def isErrE {α : Type} : Except String α → Bool
  | Except.ok _ => false
  | Except.error _ => true

/-- Project the result out of a non-raising engine call. -/
def okResult (e : Except String (List (String × PyVal))) : List (String × PyVal) :=
  match e with
  | Except.ok r => r
  | Except.error _ => []

/-- Whether a value is a dict (a voltage-tier mapping). -/
def isDictB : PyVal → Bool
  | PyVal.dict _ => true
  | _ => false

/-- A step the loop body processes without an uncaught exception: a dict
whose `charge_type` entry is a string or falsy. -/
def stepOkB : PyVal → Bool
  | PyVal.dict sd =>
      match pyOr (dictGetD sd "charge_type" PyVal.none) (PyVal.str "") with
      | PyVal.str _ => true
      | _ => false
  | _ => false

/-- A tariff item the engine can consume without an uncaught exception:
a dict whose `logic_steps` entry is falsy or a list of processable
steps. -/
def tariffItemOkB : PyVal → Bool
  | PyVal.dict logic =>
      match stepsVal logic with
      | PyVal.list steps => steps.all stepOkB
      | _ => false
  | _ => false

/-- Whether all numeric coercions of the user context and the actual
bill succeed for a row. -/
def rowCoercibleB (row : List (String × PyVal)) : Bool :=
  isOkE (getNumField row "billed_kwh") &&
  isOkE (getNumField row "billed_demand") &&
  isOkE (getNumField row "billed_rkva") &&
  isOkE (getDaysUsed row) &&
  isOkE (getActualBill row)

/-- The condition under which the engine reports SKIPPED: the normalized
service class has no truthy tariff entry, or its `logic_steps` are
falsy/empty. -/
def skipConditionB (tariff_map row : List (String × PyVal)) : Bool :=
  match dictGet tariff_map (rowSc row) with
  | Option.none => true
  | some lv =>
      !truthy lv ||
        (match lv with
         | PyVal.dict logic => !truthy (stepsVal logic)
         | _ => false)

/-- The closed set of names the evaluation context actually resolves. -/
def allowedNames : List String :=
  ["user", "pd", "time_of_use", "delivery_voltage", "min", "max", "abs",
   "round", "__builtins__"]

/-- The attributes the `user` namespace exposes. -/
def userAttrs : List String :=
  ["billed_kwh", "billed_demand", "billed_rkva", "days_used", "bill_date"]

-- ---------------------------------------------------------------------
-- concrete fixtures used by the example conjuncts and counterexamples
-- ---------------------------------------------------------------------

/-- A concrete evaluation context (100 kWh, 40 kW, 5 rkVA, 30 days). -/
def exCtx : EvalCtx :=
  EvalCtx.mk (PyVal.user 100 40 5 30 (PyVal.date "2024-01-01"))
    (PyVal.str "On Peak") (some 12)

/-- Helper building a one-tariff map with the given steps under SC1. -/
def oneTariff (steps : List PyVal) : List (String × PyVal) :=
  [("SC1", PyVal.dict [("sc_code", PyVal.str "SC1"),
     ("logic_steps", PyVal.list steps)])]

/-- Tariff with a $10 charge and two minimum candidates $20 and $25. -/
def exMinTm : List (String × PyVal) :=
  oneTariff
    [PyVal.dict [("step_name", PyVal.str "Fee"),
       ("charge_type", PyVal.str "fixed_fee"), ("value", PyVal.num 10),
       ("condition", PyVal.str "Always")],
     PyVal.dict [("step_name", PyVal.str "MinA"),
       ("charge_type", PyVal.str "minimum_charge"), ("value", PyVal.num 20)],
     PyVal.dict [("step_name", PyVal.str "MinB"),
       ("charge_type", PyVal.str "minimum_bill"), ("value", PyVal.num 25)]]

/-- Row billed $10. -/
def exMinRow : List (String × PyVal) :=
  [("service_class", PyVal.str "SC1"), ("bill_amount", PyVal.num 10)]

/-- Tariff with a single $105 fixed fee. -/
def exVarTm : List (String × PyVal) :=
  oneTariff
    [PyVal.dict [("step_name", PyVal.str "Fee"),
       ("charge_type", PyVal.str "fixed_fee"), ("value", PyVal.num 105)]]

/-- Row billed $100 (the spec variance-sign example). -/
def exVarRow : List (String × PyVal) := [("bill_amount", PyVal.num 100)]

/-- Tariff with a single fixed fee of $1.006. -/
def exRoundTm : List (String × PyVal) :=
  oneTariff
    [PyVal.dict [("step_name", PyVal.str "Fee"),
       ("charge_type", PyVal.str "fixed_fee"),
       ("value", PyVal.num (mkRat 1006 1000))]]

/-- Row billed $0.002. -/
def exRoundRow : List (String × PyVal) := [("bill_amount", PyVal.num (mkRat 2 1000))]

/-- Row whose `days_used` is a truthy non-numeric string. -/
def exBadDaysRow : List (String × PyVal) :=
  [("service_class", PyVal.str "SC1"), ("days_used", PyVal.str "abc")]

/-- Row for the SKIPPED counterexample (unknown service class). -/
def exSkipRow : List (String × PyVal) := [("service_class", PyVal.str "SC99")]

/-- Tariff with a valid $10 fee and a `per_kwh` step whose quantity
formula references an undefined `user` attribute. -/
def exBadExprTm : List (String × PyVal) :=
  oneTariff
    [PyVal.dict [("step_name", PyVal.str "Good"),
       ("charge_type", PyVal.str "fixed_fee"), ("value", PyVal.num 10)],
     PyVal.dict [("step_name", PyVal.str "Bad"),
       ("charge_type", PyVal.str "per_kwh"), ("value", PyVal.num 1),
       ("unit", PyVal.str "user.bogus_field * 2")]]

/-- Row with 100 kWh billed $10. -/
def exBadExprRow : List (String × PyVal) :=
  [("billed_kwh", PyVal.num 100), ("bill_amount", PyVal.num 10)]

/-- The boundary tiers of the spec example (`0-2.2 kV` first). -/
def exBoundaryTiers : List (String × PyVal) :=
  [("0-2.2 kV", PyVal.num (mkRat 88 1000)), ("2.2-15 kV", PyVal.num (mkRat 81 1000))]

/-- Tariff whose fixed fee is voltage-tiered with a tier starting at 0. -/
def exTieredTm : List (String × PyVal) :=
  oneTariff
    [PyVal.dict [("step_name", PyVal.str "Tiered"),
       ("charge_type", PyVal.str "fixed_fee"),
       ("value", PyVal.dict [("0-2.2 kV", PyVal.num 5),
         ("2.2-15 kV", PyVal.num 7)])]]

/-- Row whose `delivery_voltage` is the falsy number 0. -/
def exZeroVoltRow : List (String × PyVal) := [("delivery_voltage", PyVal.num 0)]

/-- A tariff item stored under the raw code `SC-1`. -/
def exStoreItem : PyVal :=
  PyVal.dict [("sc_code", PyVal.str "SC-1"), ("logic_steps", PyVal.list [])]

/-- A tariff document containing `exStoreItem`. -/
def exStoreDoc : PyVal := PyVal.list [exStoreItem]
-- ---------------------------------------------------------------------
-- bridge lemmas: the kernel-computable arithmetic agrees with Mathlib
-- ---------------------------------------------------------------------

theorem qadd_eq (a b : ℚ) : qadd a b = a + b := by
  rw [qadd, Rat.mkRat_eq_div]
  have ha : ((a.den : ℚ)) ≠ 0 := Nat.cast_ne_zero.mpr a.den_nz
  have hb : ((b.den : ℚ)) ≠ 0 := Nat.cast_ne_zero.mpr b.den_nz
  conv_rhs => rw [← Rat.num_div_den a, ← Rat.num_div_den b]
  push_cast
  field_simp

theorem qsub_eq (a b : ℚ) : qsub a b = a - b := by
  rw [qsub, Rat.mkRat_eq_div]
  have ha : ((a.den : ℚ)) ≠ 0 := Nat.cast_ne_zero.mpr a.den_nz
  have hb : ((b.den : ℚ)) ≠ 0 := Nat.cast_ne_zero.mpr b.den_nz
  conv_rhs => rw [← Rat.num_div_den a, ← Rat.num_div_den b]
  push_cast
  field_simp
  ring

theorem qmul_eq (a b : ℚ) : qmul a b = a * b := by
  rw [qmul, Rat.mkRat_eq_div]
  have ha : ((a.den : ℚ)) ≠ 0 := Nat.cast_ne_zero.mpr a.den_nz
  have hb : ((b.den : ℚ)) ≠ 0 := Nat.cast_ne_zero.mpr b.den_nz
  conv_rhs => rw [← Rat.num_div_den a, ← Rat.num_div_den b]
  push_cast
  field_simp

/-- C3: with minimum candidates recorded the final total is the maximum
of the accumulated sum and the highest candidate, the adjustment trace
line appears exactly when the sum was below that maximum, and without
candidates the state is unchanged; end to end, candidates 20 and 25 over
charges summing to 10 yield an expected bill of 25. -/
theorem minimum_charge_resolution :
    (∀ (total : ℚ) (trace : List String) (c : ℚ) (cs : List ℚ),
      (applyMinimums total trace (c :: cs)).1 = max total (maxList c cs) ∧
      ((applyMinimums total trace (c :: cs)).2 =
          trace ++ [minAdjLine (maxList c cs) (maxList c cs - total)] ↔
        total < maxList c cs)) ∧
    (∀ (total : ℚ) (trace : List String),
      applyMinimums total trace ([] : List ℚ) = (total, trace)) ∧
    dictGet (okResult (calculate_expected_bill exMinTm exMinRow)) "expected_bill"
      = some (PyVal.num 25) := by
  refine ⟨?_, ?_, ?_⟩
  · intro total trace c cs
    by_cases h : total < maxList c cs
    · constructor
      · simp [applyMinimums, h]
        exact le_of_lt h
      · simp [applyMinimums, h, qsub_eq]
    · constructor
      · simp [applyMinimums, h]
        exact not_lt.mp h
      · simp [applyMinimums, h]
  · intro total trace; rfl
  · rfl

theorem minimum_charge_resolution_witness :
    (applyMinimums 10 [] ((20 : ℚ) :: [25])).1 = max 10 (maxList 20 [25]) :=
  (minimum_charge_resolution.1 10 [] 20 [25]).1

/-- C4 (amended): the reported variance is the two-digit rounding of the
difference `expected_total - actual` (not the difference of the two
independently rounded amounts), and the sign convention holds: expected
105 against actual 100 reports variance +5. -/
theorem variance_rounds_difference :
    (∀ (sc : String) (actual total : ℚ) (trace : List String),
      dictGet (successResult sc actual total trace) "variance" =
        some (PyVal.num (pyRound2 (total - actual)))) ∧
    dictGet (okResult (calculate_expected_bill exVarTm exVarRow)) "variance" =
      some (PyVal.num 5) := by
  constructor
  · intro sc actual total trace
    rw [← qsub_eq]
    rfl
  · rfl

theorem variance_rounds_difference_witness :
    dictGet (successResult "SC1" 100 105 []) "variance" =
      some (PyVal.num (pyRound2 ((105 : ℚ) - 100))) :=
  variance_rounds_difference.1 "SC1" 100 105 []

/-- C4 (counterexample): on a tariff charging exactly 1.006 against an
actual bill of 0.002 the engine reports variance 1.00, while the claimed
round(expected) - round(actual) would be 1.01 - 0.00. -/
theorem variance_counterexample :
    dictGet (okResult (calculate_expected_bill exRoundTm exRoundRow)) "variance" =
      some (PyVal.num 1) ∧
    dictGet (okResult (calculate_expected_bill exRoundTm exRoundRow)) "expected_bill" =
      some (PyVal.num (mkRat 101 100)) ∧
    dictGet (okResult (calculate_expected_bill exRoundTm exRoundRow)) "actual_bill" =
      some (PyVal.num 0) ∧
    (1 : ℚ) ≠ mkRat 101 100 - 0 := by
  refine ⟨rfl, rfl, rfl, ?_⟩
  rw [Rat.mkRat_eq_div]
  norm_num

/-- C8: service-class normalization maps the spelling variants SC-1,
sc1 and SC 1 to the canonical SC1; lookups agree on any two raw codes
with the same normal form; and a document stored under a raw code is
found under every variant, because load and lookup normalize alike. -/
theorem sc_normalization_agrees :
    (normalize_sc_code (PyVal.str "SC-1") = "SC1" ∧
     normalize_sc_code (PyVal.str "sc1") = "SC1" ∧
     normalize_sc_code (PyVal.str "SC 1") = "SC1") ∧
    (∀ (tm : List (String × PyVal)) (raw1 raw2 : PyVal),
      normalize_sc_code raw1 = normalize_sc_code raw2 →
      dictGet tm (normalize_sc_code raw1) = dictGet tm (normalize_sc_code raw2)) ∧
    (∀ raw : PyVal, normalize_sc_code raw = "SC1" →
      dictGet (load_logic exStoreDoc) (normalize_sc_code raw) = some exStoreItem) := by
  refine ⟨⟨rfl, rfl, rfl⟩, ?_, ?_⟩
  · intro tm raw1 raw2 h; rw [h]
  · intro raw h; rw [h]; rfl

theorem sc_normalization_agrees_witness :
    dictGet ([] : List (String × PyVal)) (normalize_sc_code (PyVal.str "SC-1")) =
      dictGet ([] : List (String × PyVal)) (normalize_sc_code (PyVal.str "sc1")) ∧
    dictGet (load_logic exStoreDoc) (normalize_sc_code (PyVal.str "sc 1")) =
      some exStoreItem :=
  ⟨sc_normalization_agrees.2.1 [] (PyVal.str "SC-1") (PyVal.str "sc1") rfl,
   sc_normalization_agrees.2.2 (PyVal.str "sc 1") rfl⟩

/-- C10 (amended): a falsy `delivery_voltage_kv` falls back to
`delivery_voltage`; the voltage is treated as absent when the fallback is
`None` or a string float() cannot parse (silent coercion to None), but a
numeric falsy fallback such as 0 yields the voltage 0.0, not None. -/
theorem delivery_voltage_fallback :
    (∀ vkv : PyVal, truthy vkv = false → dvOf vkv PyVal.none = Option.none) ∧
    (∀ vkv : PyVal, truthy vkv = false → dvOf vkv (PyVal.num 0) = some 0) ∧
    (∀ (vkv : PyVal) (s : String), truthy vkv = false →
      parseFloatStr s = Option.none → dvOf vkv (PyVal.str s) = Option.none) := by
  refine ⟨?_, ?_, ?_⟩
  · intro vkv h; simp [dvOf, pyOr, h]
  · intro vkv h; simp [dvOf, pyOr, h, pyFloatE]
  · intro vkv s h hs; simp [dvOf, pyOr, h, pyFloatE, hs]

theorem delivery_voltage_fallback_witness :
    dvOf (PyVal.str "") PyVal.none = Option.none ∧
    dvOf (PyVal.num 0) (PyVal.num 0) = some 0 ∧
    dvOf PyVal.none (PyVal.str "abc") = Option.none :=
  ⟨delivery_voltage_fallback.1 (PyVal.str "") rfl,
   delivery_voltage_fallback.2.1 (PyVal.num 0) rfl,
   delivery_voltage_fallback.2.2 PyVal.none "abc" rfl rfl⟩

/-- C10 (counterexample): a row with `delivery_voltage = 0` (falsy but
present) is given voltage 0.0 rather than None, and a voltage-tiered
fixed fee then charges the 0-2.2 kV tier rate 5, not 0. -/
theorem zero_voltage_charged :
    extractDV exZeroVoltRow = some 0 ∧
    dictGet (okResult (calculate_expected_bill exTieredTm exZeroVoltRow)) "expected_bill"
      = some (PyVal.num 5) ∧
    (5 : ℚ) ≠ 0 :=
  ⟨rfl, rfl, by norm_num⟩

/-- C1 (counterexample): the identifier `pd` is outside the variable set
the spec declares, yet evaluation resolves it to the pandas module
instead of failing. -/
theorem safe_eval_resolves_pd :
    safe_eval "pd" exCtx = some (PyVal.module "pandas") := rfl

/-- C1 (amended): the namespace an expression can read is exactly the
declared set user (with its five fields), time_of_use, delivery_voltage,
min, max, abs, round TOGETHER WITH the locals entry `pd` and the globals
entry `__builtins__` (bound to None); every identifier outside that list
fails to resolve, and every attribute of `user` outside its five fields
fails. -/
theorem eval_names_closed :
    (∀ (ctx : EvalCtx) (n : String), n ∉ allowedNames →
      evalExpr ctx (Expr.name n) = Option.none) ∧
    (∀ (kwh dem rkva : ℚ) (days : ℤ) (bd tof : PyVal) (dvv : Option ℚ) (a : String),
      a ∉ userAttrs →
      evalExpr (EvalCtx.mk (PyVal.user kwh dem rkva days bd) tof dvv)
        (Expr.attr (Expr.name "user") a) = Option.none) := by
  constructor
  · intro ctx n h
    simp [allowedNames] at h
    obtain ⟨h1, h2, h3, h4, h5, h6, h7, h8, h9⟩ := h
    simp [evalExpr, lookupName, h1, h2, h3, h4, h5, h6, h7, h8, h9]
  · intro kwh dem rkva days bd tof dvv a h
    simp [userAttrs] at h
    obtain ⟨h1, h2, h3, h4, h5⟩ := h
    simp [evalExpr, lookupName, getAttrVal, Option.bind, h1, h2, h3, h4, h5]

theorem eval_names_closed_witness :
    evalExpr exCtx (Expr.name "kwh_total") = Option.none ∧
    evalExpr (EvalCtx.mk (PyVal.user 1 2 3 4 PyVal.none) PyVal.none Option.none)
      (Expr.attr (Expr.name "user") "month") = Option.none :=
  ⟨eval_names_closed.1 exCtx "kwh_total" (by decide),
   eval_names_closed.2 1 2 3 4 PyVal.none PyVal.none Option.none "month" (by decide)⟩

theorem qleB_iff (a b : ℚ) : qleB a b = true ↔ a ≤ b := by
  unfold qleB
  rw [Bool.not_eq_true']
  exact Iff.rfl

theorem select_rate_dict_some (tiers : List (String × PyVal)) (v : ℚ) :
    select_rate_by_voltage (PyVal.dict tiers) (some v) =
      (match tiers.find? (tierMatchP v) with
       | some kr => floatOrZeroOfRate kr.2
       | Option.none => 0) := rfl

theorem find_first_of_index {α : Type} (p : α → Bool) :
    ∀ (xs : List α) (i : ℕ) (hi : i < xs.length),
      p (xs.get ⟨i, hi⟩) = true →
      (∀ j (hj : j < i), p (xs.get ⟨j, Nat.lt_trans hj hi⟩) = false) →
      xs.find? p = some (xs.get ⟨i, hi⟩) := by
  intro xs
  induction xs with
  | nil => intro i hi; exact absurd hi (Nat.not_lt_zero i)
  | cons x tl ih =>
      intro i hi hp hprev
      cases i with
      | zero =>
          have hp0 : p x = true := hp
          show List.find? p (x :: tl) = some x
          rw [List.find?_cons, hp0]
      | succ n =>
          have hx : p x = false := hprev 0 (Nat.succ_pos n)
          have htl := ih n (Nat.lt_of_succ_lt_succ hi) hp
            (fun j hj => hprev (j + 1) (Nat.succ_lt_succ hj))
          rw [List.find?_cons, hx]
          exact htl

/-- C5: for a tiered value and a present voltage, the resolver returns
the (coerced) rate of the first tier in mapping order whose parsed range
contains the voltage; containment is inclusive at both ends; and the
boundary voltage 2.2 takes the 0-2.2 kV tier rate 0.088, not the
2.2-15 kV tier that starts at 2.2. -/
theorem tier_selection_first_match :
    (∀ (tiers : List (String × PyVal)) (v : ℚ) (i : ℕ) (hi : i < tiers.length),
      tierMatchP v (tiers.get ⟨i, hi⟩) = true →
      (∀ j (hj : j < i), tierMatchP v (tiers.get ⟨j, Nat.lt_trans hj hi⟩) = false) →
      select_rate_by_voltage (PyVal.dict tiers) (some v) =
        floatOrZeroOfRate (tiers.get ⟨i, hi⟩).2) ∧
    (∀ (v low high : ℚ), tierContains v (low, some high) = true ↔
      (low ≤ v ∧ v ≤ high)) ∧
    select_rate_by_voltage (PyVal.dict exBoundaryTiers) (some (mkRat 11 5)) =
      mkRat 88 1000 := by
  refine ⟨?_, ?_, rfl⟩
  · intro tiers v i hi hp hprev
    have hf : tiers.find? (tierMatchP v) = some (tiers.get ⟨i, hi⟩) :=
      find_first_of_index (tierMatchP v) tiers i hi hp hprev
    rw [select_rate_dict_some, hf]
  · intro v low high
    unfold tierContains
    simp only [Bool.and_eq_true, qleB_iff]

theorem tier_selection_first_match_witness :
    select_rate_by_voltage (PyVal.dict exBoundaryTiers) (some (mkRat 11 5)) =
      floatOrZeroOfRate (exBoundaryTiers.get ⟨0, by decide⟩).2 :=
  tier_selection_first_match.1 exBoundaryTiers (mkRat 11 5) 0 (by decide)
    rfl (fun j hj => absurd hj (Nat.not_lt_zero j))

/-- C6: a failed condition evaluation gates the step off; a failed
quantity evaluation makes a per-kwh or energy-charge step cost rate
times zero; a failed demand evaluation makes a per-kw, demand-charge or
demand-fee step cost rate times zero; a failed reactive-demand
evaluation makes a per-rkva or reactive-demand-fee step cost rate times
zero; and end to end a step whose formula references an undefined
variable contributes zero dollars while the audit still returns SUCCESS
with the other valid step amounts intact. -/
theorem failed_expressions_zero :
    (∀ (c : String) (ctx : EvalCtx), safe_eval c ctx = Option.none →
      c ≠ "Always" → conditionPasses ctx c = false) ∧
    (∀ (sd : List (String × PyVal)) (ctx : EvalCtx) (dv : Option ℚ),
      safe_eval (resolveQuantityExpr sd) ctx = Option.none →
      computeCost sd "per_kwh" ctx dv = Except.ok (some 0) ∧
      computeCost sd "energy_charge" ctx dv = Except.ok (some 0)) ∧
    (∀ (sd : List (String × PyVal)) (ctx : EvalCtx) (dv : Option ℚ),
      safe_eval (resolveDemandExpr sd) ctx = Option.none →
      computeCost sd "per_kw" ctx dv = Except.ok (some 0) ∧
      computeCost sd "demand_charge" ctx dv = Except.ok (some 0) ∧
      computeCost sd "demand_fee" ctx dv = Except.ok (some 0)) ∧
    (∀ (sd : List (String × PyVal)) (ctx : EvalCtx) (dv : Option ℚ),
      safe_eval (resolveRkvaExpr sd) ctx = Option.none →
      computeCost sd "per_rkva" ctx dv = Except.ok (some 0) ∧
      computeCost sd "reactive_demand_fee" ctx dv = Except.ok (some 0)) ∧
    (dictGet (okResult (calculate_expected_bill exBadExprTm exBadExprRow)) "status"
        = some (PyVal.str "SUCCESS") ∧
     dictGet (okResult (calculate_expected_bill exBadExprTm exBadExprRow)) "expected_bill"
        = some (PyVal.num 10)) := by
  refine ⟨?_, ?_, ?_, ?_, rfl, rfl⟩
  · intro c ctx hev hne
    simp [conditionPasses, hne, hev]
  · intro sd ctx dv hev
    constructor <;> simp [computeCost, hev, floatOrZeroE, qmul_eq]
  · intro sd ctx dv hev
    refine ⟨?_, ?_, ?_⟩ <;> simp [computeCost, hev, floatOrZeroE, qmul_eq]
  · intro sd ctx dv hev
    constructor <;> simp [computeCost, hev, floatOrZeroE, qmul_eq]

theorem failed_expressions_zero_witness :
    conditionPasses exCtx "bogus_name" = false ∧
    computeCost [] "per_kwh" (EvalCtx.mk PyVal.none PyVal.none Option.none)
      Option.none = Except.ok (some 0) ∧
    computeCost [] "demand_charge" (EvalCtx.mk PyVal.none PyVal.none Option.none)
      Option.none = Except.ok (some 0) ∧
    computeCost [] "per_rkva" (EvalCtx.mk PyVal.none PyVal.none Option.none)
      Option.none = Except.ok (some 0) :=
  ⟨failed_expressions_zero.1 "bogus_name" exCtx rfl (by decide),
   (failed_expressions_zero.2.1 [] (EvalCtx.mk PyVal.none PyVal.none Option.none)
     Option.none rfl).1,
   (failed_expressions_zero.2.2.1 [] (EvalCtx.mk PyVal.none PyVal.none Option.none)
     Option.none rfl).2.1,
   (failed_expressions_zero.2.2.2.1 [] (EvalCtx.mk PyVal.none PyVal.none Option.none)
     Option.none rfl).1⟩

/-- C7: the tier resolver is total and conservatively yields 0.0: a
non-dict value whose float coercion fails gives 0, a tiered value with an
absent voltage gives 0, and a tiered value whose ranges all miss the
given voltage gives 0. -/
theorem tier_resolver_conservative :
    (∀ (v : PyVal) (dv : Option ℚ), isDictB v = false →
      isErrE (pyFloatE (if truthy v then v else PyVal.num 0)) = true →
      select_rate_by_voltage v dv = 0) ∧
    (∀ tiers : List (String × PyVal),
      select_rate_by_voltage (PyVal.dict tiers) Option.none = 0) ∧
    (∀ (tiers : List (String × PyVal)) (v : ℚ),
      (∀ p ∈ tiers, tierMatchP v p = false) →
      select_rate_by_voltage (PyVal.dict tiers) (some v) = 0) := by
  refine ⟨?_, ?_, ?_⟩
  · intro v dv hd he
    have hz : floatOrZeroOfRate v = 0 := by
      unfold floatOrZeroOfRate
      cases hpf : pyFloatE (if truthy v then v else PyVal.num 0) with
      | ok q => rw [hpf] at he; simp [isErrE] at he
      | error e => simp [hpf]
    cases v with
    | dict xs => simp [isDictB] at hd
    | none => exact hz
    | bool b => exact hz
    | num q => exact hz
    | str s => exact hz
    | list xs => exact hz
    | builtin n => exact hz
    | module n => exact hz
    | user a b c d e => exact hz
    | date s => exact hz
  · intro tiers; rfl
  · intro tiers v h
    have hf : tiers.find? (tierMatchP v) = Option.none := by
      rw [List.find?_eq_none]
      intro p hp
      simp [h p hp]
    rw [select_rate_dict_some, hf]

theorem tier_resolver_conservative_witness :
    select_rate_by_voltage (PyVal.str "n/a") (some 3) = 0 ∧
    select_rate_by_voltage (PyVal.dict exBoundaryTiers) Option.none = 0 ∧
    select_rate_by_voltage (PyVal.dict exBoundaryTiers) (some 99) = 0 :=
  ⟨tier_resolver_conservative.1 (PyVal.str "n/a") (some 3) rfl rfl,
   tier_resolver_conservative.2.1 exBoundaryTiers,
   tier_resolver_conservative.2.2 exBoundaryTiers 99 (by decide)⟩
theorem bind_ok_eq {α β : Type} (a : α) (f : α → Except String β) :
    (Except.ok a >>= f) = f a := rfl

theorem exceptBindOk {α β : Type} (x : Except String α) (f : α → Except String β)
    (b : β) (h : (x >>= f) = Except.ok b) :
    ∃ a, x = Except.ok a ∧ f a = Except.ok b := by
  cases x with
  | ok a => exact ⟨a, rfl, h⟩
  | error e => exact Except.noConfusion h

theorem isOkE_exists {α : Type} {e : Except String α} (h : isOkE e = true) :
    ∃ a, e = Except.ok a := by
  cases e with
  | ok a => exact ⟨a, rfl⟩
  | error _ => simp [isOkE] at h

theorem runAudit_shape (row : List (String × PyVal)) (sc : String)
    (steps : List PyVal) (r : List (String × PyVal))
    (h : runAudit row sc steps = Except.ok r) :
    ∃ actual total trace, r = successResult sc actual total trace := by
  unfold runAudit at h
  obtain ⟨kwh, hk, h⟩ := exceptBindOk _ _ _ h
  obtain ⟨dem, hd, h⟩ := exceptBindOk _ _ _ h
  obtain ⟨rkva, hr, h⟩ := exceptBindOk _ _ _ h
  obtain ⟨days, hdy, h⟩ := exceptBindOk _ _ _ h
  obtain ⟨st, hst, h⟩ := exceptBindOk _ _ _ h
  obtain ⟨actual, hac, h⟩ := exceptBindOk _ _ _ h
  exact ⟨actual, _, _, (Except.ok.inj h).symm⟩

theorem calc_result_shape (tm row r : List (String × PyVal))
    (h : calculate_expected_bill tm row = Except.ok r) :
    (∃ reason sc, r = skippedResult reason sc) ∨
    (∃ sc actual total trace, r = successResult sc actual total trace) := by
  simp only [calculate_expected_bill] at h
  repeat' split at h
  all_goals first
    | exact Except.noConfusion h
    | exact Or.inl ⟨_, _, (Except.ok.inj h).symm⟩
    | (obtain ⟨a2, t2, tr2, hre⟩ := runAudit_shape _ _ _ _ h
       exact Or.inr ⟨_, a2, t2, tr2, hre⟩)

/-- C9 (amended): every result the engine returns carries the keys
status, sc_code, expected_bill, variance and trace; SUCCESS results
additionally carry actual_bill, while SKIPPED results carry no
actual_bill key (they carry reason and expected_amount instead). -/
theorem audit_result_fields (tm row r : List (String × PyVal))
    (h : calculate_expected_bill tm row = Except.ok r) :
    (hasKey r "status" = true ∧ hasKey r "sc_code" = true ∧
     hasKey r "expected_bill" = true ∧ hasKey r "variance" = true ∧
     hasKey r "trace" = true) ∧
    (dictGet r "status" = some (PyVal.str "SUCCESS") → hasKey r "actual_bill" = true) ∧
    (dictGet r "status" = some (PyVal.str "SKIPPED") → hasKey r "actual_bill" = false) := by
  rcases calc_result_shape tm row r h with ⟨reason, sc, rfl⟩ | ⟨sc, a, t, tr, rfl⟩
  · refine ⟨⟨rfl, rfl, rfl, rfl, rfl⟩, ?_, fun _ => rfl⟩
    intro hs
    have h0 : dictGet (skippedResult reason sc) "status" =
        some (PyVal.str "SKIPPED") := rfl
    rw [h0] at hs
    simp at hs
  · refine ⟨⟨rfl, rfl, rfl, rfl, rfl⟩, fun _ => rfl, ?_⟩
    intro hs
    have h0 : dictGet (successResult sc a t tr) "status" =
        some (PyVal.str "SUCCESS") := rfl
    rw [h0] at hs
    simp at hs

theorem audit_result_fields_witness :
    (hasKey (okResult (calculate_expected_bill [] exSkipRow)) "status" = true ∧
     hasKey (okResult (calculate_expected_bill [] exSkipRow)) "sc_code" = true ∧
     hasKey (okResult (calculate_expected_bill [] exSkipRow)) "expected_bill" = true ∧
     hasKey (okResult (calculate_expected_bill [] exSkipRow)) "variance" = true ∧
     hasKey (okResult (calculate_expected_bill [] exSkipRow)) "trace" = true) ∧
    (dictGet (okResult (calculate_expected_bill [] exSkipRow)) "status" =
        some (PyVal.str "SUCCESS") →
      hasKey (okResult (calculate_expected_bill [] exSkipRow)) "actual_bill" = true) ∧
    (dictGet (okResult (calculate_expected_bill [] exSkipRow)) "status" =
        some (PyVal.str "SKIPPED") →
      hasKey (okResult (calculate_expected_bill [] exSkipRow)) "actual_bill" = false) :=
  audit_result_fields [] exSkipRow (okResult (calculate_expected_bill [] exSkipRow)) rfl

/-- C9 (counterexample): a SKIPPED result on an unknown service class
does not contain the claimed `actual_bill` field. -/
theorem skipped_lacks_actual_bill :
    dictGet (okResult (calculate_expected_bill [] exSkipRow)) "status" =
      some (PyVal.str "SKIPPED") ∧
    hasKey (okResult (calculate_expected_bill [] exSkipRow)) "actual_bill" = false :=
  ⟨rfl, rfl⟩

theorem processStep_ok (ctx : EvalCtx) (dv : Option ℚ)
    (st : ℚ × List String × List ℚ) (s : PyVal) (hs : stepOkB s = true) :
    ∃ st2, processStep ctx dv st s = Except.ok st2 := by
  apply isOkE_exists
  cases s with
  | dict sd =>
      cases hct : pyOr (dictGetD sd "charge_type" PyVal.none) (PyVal.str "") with
      | str ct0 =>
          simp only [processStep, hct]
          repeat' split
          all_goals rfl
      | none => simp only [stepOkB, hct] at hs; exact Bool.noConfusion hs
      | bool b => simp only [stepOkB, hct] at hs; exact Bool.noConfusion hs
      | num q => simp only [stepOkB, hct] at hs; exact Bool.noConfusion hs
      | list xs => simp only [stepOkB, hct] at hs; exact Bool.noConfusion hs
      | dict xs => simp only [stepOkB, hct] at hs; exact Bool.noConfusion hs
      | builtin n => simp only [stepOkB, hct] at hs; exact Bool.noConfusion hs
      | module n => simp only [stepOkB, hct] at hs; exact Bool.noConfusion hs
      | user a b c d e => simp only [stepOkB, hct] at hs; exact Bool.noConfusion hs
      | date s2 => simp only [stepOkB, hct] at hs; exact Bool.noConfusion hs
  | none => exact Bool.noConfusion hs
  | bool b => exact Bool.noConfusion hs
  | num q => exact Bool.noConfusion hs
  | str s2 => exact Bool.noConfusion hs
  | list xs => exact Bool.noConfusion hs
  | builtin n => exact Bool.noConfusion hs
  | module n => exact Bool.noConfusion hs
  | user a b c d e => exact Bool.noConfusion hs
  | date s2 => exact Bool.noConfusion hs

theorem runSteps_ok (ctx : EvalCtx) (dv : Option ℚ) :
    ∀ (steps : List PyVal) (st0 : ℚ × List String × List ℚ),
      steps.all stepOkB = true →
      ∃ st, List.foldlM (processStep ctx dv) st0 steps = Except.ok st := by
  intro steps
  induction steps with
  | nil => intro st0 _; exact ⟨st0, rfl⟩
  | cons s tl ih =>
      intro st0 hall
      rw [List.all_cons, Bool.and_eq_true] at hall
      obtain ⟨st1, h1⟩ := processStep_ok ctx dv st0 s hall.1
      obtain ⟨st2, h2⟩ := ih st1 hall.2
      refine ⟨st2, ?_⟩
      rw [List.foldlM_cons, h1]
      simpa [Bind.bind] using h2

theorem runAudit_ok (row : List (String × PyVal)) (sc : String) (steps : List PyVal)
    (hall : steps.all stepOkB = true) (hrow : rowCoercibleB row = true) :
    ∃ res, runAudit row sc steps = Except.ok res ∧
      dictGet res "status" = some (PyVal.str "SUCCESS") := by
  unfold rowCoercibleB at hrow
  simp only [Bool.and_eq_true] at hrow
  obtain ⟨⟨⟨⟨hk, hd⟩, hr⟩, hdy⟩, hac⟩ := hrow
  obtain ⟨qk, hqk⟩ := isOkE_exists hk
  obtain ⟨qd, hqd⟩ := isOkE_exists hd
  obtain ⟨qr, hqr⟩ := isOkE_exists hr
  obtain ⟨nd, hnd⟩ := isOkE_exists hdy
  obtain ⟨qa, hqa⟩ := isOkE_exists hac
  obtain ⟨st, hst⟩ := runSteps_ok (mkUserCtx row qk qd qr nd) (extractDV row)
    steps ((0 : ℚ), ([] : List String), ([] : List ℚ)) hall
  unfold runAudit
  rw [hqk]
  simp only [bind_ok_eq]
  rw [hqd]
  simp only [bind_ok_eq]
  rw [hqr]
  simp only [bind_ok_eq]
  rw [hnd]
  simp only [bind_ok_eq]
  rw [show runSteps (mkUserCtx row qk qd qr nd) (extractDV row) steps =
      Except.ok st from hst]
  simp only [bind_ok_eq]
  rw [hqa]
  simp only [bind_ok_eq]
  exact ⟨_, rfl, rfl⟩

theorem dictGet_mem (xs : List (String × PyVal)) (k : String) (v : PyVal)
    (h : dictGet xs k = some v) : ∃ p ∈ xs, p.2 = v := by
  unfold dictGet at h
  split at h
  · rename_i p hf
    exact ⟨p, List.mem_of_find?_eq_some hf, Option.some.inj h⟩
  · exact Option.noConfusion h

/-- C2 (amended): provided every tariff item is well formed (a dict
whose steps are dicts with string-or-falsy charge_type) and every truthy
numeric field of the row coerces, `calculate_expected_bill` returns
without raising; its status is SUCCESS or SKIPPED, and SKIPPED occurs
exactly when the normalized service class has no truthy tariff entry or
its logic_steps are falsy or empty; `days_used` defaults to 30 both when
the key is absent from the row and when it is present with a falsy value
(a truthy non-numeric value raises instead). -/
theorem engine_no_raise_and_skip_iff :
    (∀ (tm row : List (String × PyVal)),
      (∀ p ∈ tm, tariffItemOkB p.2 = true) →
      rowCoercibleB row = true →
      ∃ r, calculate_expected_bill tm row = Except.ok r ∧
        (dictGet r "status" = some (PyVal.str "SUCCESS") ∨
         dictGet r "status" = some (PyVal.str "SKIPPED")) ∧
        (dictGet r "status" = some (PyVal.str "SKIPPED") ↔
          skipConditionB tm row = true)) ∧
    (∀ row : List (String × PyVal),
      dictGet row "days_used" = Option.none →
      getDaysUsed row = Except.ok 30) ∧
    (∀ (row : List (String × PyVal)) (v : PyVal),
      dictGet row "days_used" = some v → truthy v = false →
      getDaysUsed row = Except.ok 30) := by
  refine ⟨?_, ?_, ?_⟩
  · intro tm row htm hrow
    unfold calculate_expected_bill skipConditionB
    cases hlg : dictGet tm (rowSc row) with
    | none =>
        exact ⟨_, rfl, Or.inr rfl, fun _ => rfl, fun _ => rfl⟩
    | some lv =>
        have hlvOk : tariffItemOkB lv = true := by
          obtain ⟨p, hp, hp2⟩ := dictGet_mem tm (rowSc row) lv hlg
          rw [← hp2]
          exact htm p hp
        cases lv with
        | dict logic =>
            simp only []
            simp only [tariffItemOkB] at hlvOk
            cases hlsv : stepsVal logic with
            | list steps =>
                rw [hlsv] at hlvOk
                cases logic with
                | nil =>
                    exact ⟨_, rfl, Or.inr rfl, fun _ => rfl, fun _ => rfl⟩
                | cons p0 ps =>
                    cases steps with
                    | nil =>
                        exact ⟨_, rfl, Or.inr rfl, fun _ => rfl, fun _ => rfl⟩
                    | cons s0 ss =>
                        obtain ⟨res, hres, hstat⟩ :=
                          runAudit_ok row (rowSc row) (s0 :: ss) hlvOk hrow
                        refine ⟨res, hres, Or.inl hstat, ?_, ?_⟩
                        · intro hc
                          rw [hstat] at hc
                          simp at hc
                        · intro hc
                          exact Bool.noConfusion hc
            | none => rw [hlsv] at hlvOk; exact Bool.noConfusion hlvOk
            | bool b => rw [hlsv] at hlvOk; exact Bool.noConfusion hlvOk
            | num q => rw [hlsv] at hlvOk; exact Bool.noConfusion hlvOk
            | str s2 => rw [hlsv] at hlvOk; exact Bool.noConfusion hlvOk
            | dict xs => rw [hlsv] at hlvOk; exact Bool.noConfusion hlvOk
            | builtin n => rw [hlsv] at hlvOk; exact Bool.noConfusion hlvOk
            | module n => rw [hlsv] at hlvOk; exact Bool.noConfusion hlvOk
            | user a b c d e => rw [hlsv] at hlvOk; exact Bool.noConfusion hlvOk
            | date s2 => rw [hlsv] at hlvOk; exact Bool.noConfusion hlvOk
        | none => simp [tariffItemOkB] at hlvOk
        | bool b => simp [tariffItemOkB] at hlvOk
        | num q => simp [tariffItemOkB] at hlvOk
        | str s2 => simp [tariffItemOkB] at hlvOk
        | list xs => simp [tariffItemOkB] at hlvOk
        | builtin n => simp [tariffItemOkB] at hlvOk
        | module n => simp [tariffItemOkB] at hlvOk
        | user a b c d e => simp [tariffItemOkB] at hlvOk
        | date s2 => simp [tariffItemOkB] at hlvOk
  · intro row h
    simp only [getDaysUsed, dictGetD, h]
    rfl
  · intro row v hv ht
    simp only [getDaysUsed, dictGetD, hv, pyOr, ht]
    rfl

theorem engine_no_raise_witness :
    (∃ r, calculate_expected_bill exVarTm exVarRow = Except.ok r ∧
      (dictGet r "status" = some (PyVal.str "SUCCESS") ∨
       dictGet r "status" = some (PyVal.str "SKIPPED")) ∧
      (dictGet r "status" = some (PyVal.str "SKIPPED") ↔
        skipConditionB exVarTm exVarRow = true)) ∧
    getDaysUsed [] = Except.ok 30 ∧
    getDaysUsed [("days_used", PyVal.num 0)] = Except.ok 30 :=
  ⟨engine_no_raise_and_skip_iff.1 exVarTm exVarRow (by decide) rfl,
   engine_no_raise_and_skip_iff.2.1 [] rfl,
   engine_no_raise_and_skip_iff.2.2 [("days_used", PyVal.num 0)]
     (PyVal.num 0) rfl (by decide)⟩

/-- C2 (counterexample): a row whose `days_used` is the truthy
non-numeric string abc makes `calculate_expected_bill` raise (the
`int()` coercion is not guarded), instead of returning a result. -/
theorem engine_raises_on_bad_days_used :
    calculate_expected_bill exVarTm exBadDaysRow =
      Except.error "ValueError: invalid literal for int()" := rfl
